import Mathlib

set_option maxHeartbeats 1000000

namespace AddressValidate

/-- JSON-like values, the payload shape exchanged with the two HTTP endpoints in
src/address_validate.py. Numbers are modelled as integers; no claim depends on the
numeric payload values (lat and lng are extracted but never returned). -/
inductive Json where
  | null : Json
  | bool : Bool → Json
  | num : Int → Json
  | str : String → Json
  | arr : List Json → Json
  | obj : List (String × Json) → Json

/-- Python truthiness of a JSON value: None, False, 0, empty string, empty list and
empty dict are falsy, everything else truthy. -/
def truthy : Json → Bool
  | .null => false
  | .bool b => b
  | .num n => n != 0
  | .str s => s != ""
  | .arr xs => !xs.isEmpty
  | .obj fs => !fs.isEmpty

/-- True exactly when the value is a dict. -/
def isObj : Json → Bool
  | .obj _ => true
  | _ => false

/-- First binding of a key in a dict field list (Python dict lookup). -/
def objFind : List (String × Json) → String → Option Json
  | [], _ => none
  | (k, v) :: fs, key => if k == key then some v else objFind fs key

/-- Total counterpart of dict.get used to state facts about extracted payload fields:
returns the default when the value is not a dict. The executable embedding py_get below
raises instead, as Python does. -/
def jget (j : Json) (key : String) (dflt : Json) : Json :=
  match j with
  | .obj fs => (objFind fs key).getD dflt
  | _ => dflt

/-- Key membership in a dict field list. -/
def hasKeyFs (fs : List (String × Json)) (key : String) : Bool :=
  (objFind fs key).isSome

/-- Python equality between a JSON value and a string literal: true exactly for the
equal string. Every equality test in the source compares a payload value against a
string literal, and Python cross-type equality with a string is always false. -/
def jeqStr (j : Json) (s : String) : Bool :=
  match j with
  | .str t => t == s
  | _ => false

/-- Python and on two values: the left value when it is falsy, otherwise the right. -/
def pyAnd (a b : Json) : Json := if truthy a then b else a

/-- Python type name of a JSON value, used in exception messages. -/
def pyTypeName : Json → String
  | .null => "NoneType"
  | .bool _ => "bool"
  | .num _ => "int"
  | .str _ => "str"
  | .arr _ => "list"
  | .obj _ => "dict"

mutual

/-- Python repr of a JSON value (a close rendering, used only to interpolate error
payloads into status strings). -/
def pyRepr : Json → String
  | .null => "None"
  | .bool b => cond b "True" "False"
  | .num n => toString n
  | .str s => "\x27" ++ s ++ "\x27"
  | .arr xs => "[" ++ pyReprList xs ++ "]"
  | .obj fs => "\x7b" ++ pyReprObj fs ++ "\x7d"

/-- Comma-joined reprs of the elements of a list value. -/
def pyReprList : List Json → String
  | [] => ""
  | [x] => pyRepr x
  | x :: y :: xs => pyRepr x ++ ", " ++ pyReprList (y :: xs)

/-- Comma-joined reprs of the entries of a dict value. -/
def pyReprObj : List (String × Json) → String
  | [] => ""
  | [(k, v)] => "\x27" ++ k ++ "\x27: " ++ pyRepr v
  | (k, v) :: e :: fs => "\x27" ++ k ++ "\x27: " ++ pyRepr v ++ ", " ++ pyReprObj (e :: fs)

end

/-- Python str() as performed by f-string interpolation: strings render as themselves,
other values as their repr. -/
def pyStr : Json → String
  | .str s => s
  | j => pyRepr j

/-- Substring containment, the meaning of the Python in operator on strings. -/
def strContainsSub (needle hay : String) : Bool :=
  (List.range (hay.length + 1)).any (fun i => needle.isPrefixOf (hay.drop i))

/-- Python membership test (key in value): key lookup on dicts, substring test on
strings, element equality on lists; TypeError on non-container values. -/
def py_in (key : String) : Json → Except String Bool
  | .obj fs => .ok (hasKeyFs fs key)
  | .str s => .ok (strContainsSub key s)
  | .arr xs => .ok (xs.any (fun x => jeqStr x key))
  | other => .error ("TypeError: argument of type \x27" ++ pyTypeName other ++ "\x27 is not iterable")

/-- Python value[key] with a string key: dict lookup raising KeyError on a missing key,
TypeError on every non-dict value. -/
def py_getitem (j : Json) (key : String) : Except String Json :=
  match j with
  | .obj fs =>
    match objFind fs key with
    | some v => .ok v
    | none => .error ("KeyError: \x27" ++ key ++ "\x27")
  | .str _ => .error "TypeError: string indices must be integers"
  | .arr _ => .error "TypeError: list indices must be integers or slices, not str"
  | other => .error ("TypeError: \x27" ++ pyTypeName other ++ "\x27 object is not subscriptable")

/-- Python value.get(key, default): AttributeError on every non-dict value. The carried
message is str(e), the text the Parse Error handler interpolates. -/
def py_get (j : Json) (key : String) (dflt : Json) : Except String Json :=
  match j with
  | .obj fs => .ok ((objFind fs key).getD dflt)
  | other => .error ("\x27" ++ pyTypeName other ++ "\x27 object has no attribute \x27get\x27")

/-- Python hashability of a JSON value: lists and dicts are unhashable, every other
value hashes. -/
def py_hashable : Json → Bool
  | .arr _ => false
  | .obj _ => false
  | _ => true

/-- Hashing a value, as dict.get and set membership do to their key: raises TypeError
on lists and dicts. The carried message is str(e). -/
def py_hash_check : Json → Except String Unit
  | .arr _ => .error "unhashable type: \x27list\x27"
  | .obj _ => .error "unhashable type: \x27dict\x27"
  | _ => .ok ()

/-- The dict returned by parse_validation_result, one per address. The two error paths
return a dict with keys lat, lng and usps_data (each bound to None) and without the
USPS flag keys; the main path returns the flag keys and omits lat, lng and usps_data.
An Option field set to none models an absent key; some v models a present key bound
to v. -/
structure ParsedResult where
  original_address : String
  validated_address : Json
  is_valid : Bool
  validation_status : String
  lat : Option Json := none
  lng : Option Json := none
  usps_data : Option Json := none
  is_po_box : Option Json := none
  is_dpv_confirmed : Option Bool := none
  is_confirmed : Option Json := none
  is_vacant : Option Json := none
  is_no_stat : Option Json := none
  is_cmra : Option Json := none
  is_undeliverable : Option Json := none
  dpv_confirmation_description : Option String := none

/-- Lines 120-129: the dict returned when the response carries a top-level error key. -/
def api_error_result (original_address : String) (err : Json) : ParsedResult :=
  { original_address := original_address
    validated_address := .str original_address
    is_valid := false
    validation_status := "API Error: " ++ pyStr err
    lat := some .null
    lng := some .null
    usps_data := some .null }

/-- Lines 221-230: the dict returned when an exception escapes the try block. -/
def parse_error_result (original_address : String) (msg : String) : ParsedResult :=
  { original_address := original_address
    validated_address := .str original_address
    is_valid := false
    validation_status := "Parse Error: " ++ msg
    lat := some .null
    lng := some .null
    usps_data := some .null }

/-- The six-row description table of lines 106-113 with the unknown-code default, as
the pure lookup value on hashable codes: the string keys only ever equal an equal
string code. -/
def dpv_code_table (code : Json) : String :=
  if jeqStr code "Y" then "Address confirmed (Primary and secondary if present)."
  else if jeqStr code "N" then "Address not confirmed (No primary or secondary match)."
  else if jeqStr code "D" then "Primary confirmed, but secondary information is missing."
  else if jeqStr code "S" then "Primary confirmed, secondary information exists but was not provided in the input."
  else if jeqStr code "C" then "Address confirmed, but it is a Commercial Mail Receiving Agency (CMRA)."
  else if jeqStr code "B" then "Primary confirmed, but it is a PO Box or equivalent."
  else "Unknown DPV Confirmation Code"

/-- Lines 104-114, the helper that maps DPV confirmation codes to descriptions:
mapping.get(code, "Unknown DPV Confirmation Code"). dict.get hashes the code first, so
a list- or dict-valued code raises TypeError; hashable codes take the table lookup. -/
def map_dpv_confirmation (code : Json) : Except String String :=
  match py_hash_check code with
  | .error e => .error e
  | .ok _ => .ok (dpv_code_table code)

/-- Lines 141-164: the if/elif chain mapping validation_granularity to the pair
(status, is_valid). -/
def granularity_status (validation_granularity : Json) : String × Bool :=
  if jeqStr validation_granularity "SUB_PREMISE" then
    ("Highly Mailable Address (Validated to sub-unit)", true)
  else if jeqStr validation_granularity "PREMISE" then
    ("Standard Mailable Address (Validated to building)", true)
  else if jeqStr validation_granularity "STREET" then
    ("Partial Address (Street-level only, may not be reliably mailable)", true)
  else if jeqStr validation_granularity "LOCALITY" then
    ("Non-Mailable Address (Only city-level validated)", false)
  else if jeqStr validation_granularity "REGION" then
    ("Non-Mailable Address (Only region/state validated)", false)
  else if jeqStr validation_granularity "COUNTRY" then
    ("Non-Mailable Address (Only country validated)", false)
  else if jeqStr validation_granularity "OTHER" then
    ("Non-Mailable Address (Unknown or unvalidated)", false)
  else
    ("Non-Mailable Address (Unknown validation granularity)", false)

/-- The literal suffix appended on line 168. -/
def inferred_note : String := " — Note: Some components were inferred."

/-- The membership value of line 167 on hashable granularity values: the set holds
three strings, so membership is equality with one of them. -/
def gran_mailable (g : Json) : Bool :=
  jeqStr g "SUB_PREMISE" || jeqStr g "PREMISE" || jeqStr g "STREET"

/-- Line 167 set membership: Python hashes the granularity value, raising TypeError
on lists and dicts before any comparison. -/
def gran_mailable_mem (g : Json) : Except String Bool :=
  match py_hash_check g with
  | .error e => .error e
  | .ok _ => .ok (gran_mailable g)

/-- Line 194: membership of the granularity in the list of the two premise levels. -/
def gran_premise_level (g : Json) : Bool :=
  jeqStr g "PREMISE" || jeqStr g "SUB_PREMISE"

/-- Lines 141-168 combined: the status value on inputs where line 167 does not raise,
with the inferred note appended when has_inferred is truthy and the granularity is one
of the three mailable levels. -/
def main_status (g hi : Json) : String :=
  if truthy hi && gran_mailable g then (granularity_status g).1 ++ inferred_note
  else (granularity_status g).1

/-- Lines 166-168: append the note when has_inferred is truthy and the granularity is
in the mailable set. The Python and short-circuits, so the set membership (which
hashes the granularity and may raise) runs only when has_inferred is truthy. -/
def status_with_note (validation_granularity has_inferred : Json) : Except String String :=
  if truthy has_inferred then
    match gran_mailable_mem validation_granularity with
    | .error e => .error e
    | .ok m => .ok (if m then (granularity_status validation_granularity).1 ++ inferred_note
                    else (granularity_status validation_granularity).1)
  else .ok (granularity_status validation_granularity).1

/-- Lines 193-201: the chained and over the seven verdict conditions, with the Python
left associativity. The verdict value is a dict whenever this line runs (the get on
line 137 already succeeded), so the gets here cannot raise and the total jget is used. -/
def confirmed_chain (verdict : Json) : Json :=
  pyAnd (pyAnd (pyAnd (pyAnd (pyAnd (pyAnd
    (.bool (gran_premise_level (jget verdict "validationGranularity" .null)))
    (jget verdict "addressComplete" .null))
    (.bool (!truthy (jget verdict "hasInferredComponents" .null))))
    (.bool (!truthy (jget verdict "hasReplacedComponents" .null))))
    (.bool (!truthy (jget verdict "unconfirmedComponentTypes" .null))))
    (.bool (!truthy (jget verdict "missingComponentTypes" .null))))
    (.bool (!truthy (jget verdict "unresolvedTokens" .null)))

/-- Lines 193-203: the confirmed value, re-gated by dpvConfirmation == Y when the
region is US and CASS checking is enabled. usps_data is a dict whenever line 203 runs
(the get on line 191 already succeeded), so jget is exact here as well. -/
def main_confirmed (verdict usps_data : Json) (region_code : String) (enable_usps_cass : Bool) : Json :=
  let c0 := confirmed_chain verdict
  if region_code == "US" && enable_usps_cass then
    pyAnd c0 (.bool (jeqStr (jget usps_data "dpvConfirmation" .null) "Y"))
  else c0

/-- Lines 131-219: the body of the try block of parse_validation_result. A raised
Python exception is an Except.error carrying str(e). Where a value is statically known
to be a dict because an earlier get on it succeeded, the total jget replaces the
raising get (the source lines 193-203 and 211-218 touch verdict and usps_data only
after lines 137 and 191 proved them dicts; the equality tests and list memberships
there never hash their operands). The two hashing sites inside the block, the set
membership of line 167 and the dict lookup of line 192, raise TypeError on unhashable
values and are modelled by status_with_note and map_dpv_confirmation. -/
def tryBody (result : Json) (original_address : String) (region_code : String)
    (enable_usps_cass : Bool) : Except String ParsedResult := do
  let validation_result ← py_get result "result" (.obj [])
  let verdict ← py_get validation_result "verdict" (.obj [])
  let address_obj ← py_get validation_result "address" (.obj [])
  let validation_granularity ← py_get verdict "validationGranularity" (.str "UNKNOWN")
  let _address_complete ← py_get verdict "addressComplete" (.bool false)
  let has_inferred ← py_get verdict "hasInferredComponents" (.bool false)
  let status ← status_with_note validation_granularity has_inferred
  let formatted_address ← py_get address_obj "formattedAddress" (.str original_address)
  let geocode ← py_get validation_result "geocode" (.obj [])
  let location ← py_get geocode "location" (.obj [])
  let _lat ← py_get location "lat" .null
  let _lng ← py_get location "lng" .null
  let usps_data ← py_get validation_result "uspsData" (.obj [])
  let metadata ← py_get validation_result "metadata" (.obj [])
  let is_po_box ← if region_code == "US" then py_get metadata "poBox" (.bool false)
    else pure (Json.bool false)
  let is_dpv_confirmed ← if region_code == "US" then do
      let c ← py_get usps_data "dpvConfirmation" .null
      pure (jeqStr c "Y")
    else pure false
  let dpv_confirmation ← py_get usps_data "dpvConfirmation" (.str "N/A")
  let dpv_confirmation_description ← map_dpv_confirmation dpv_confirmation
  pure { original_address := original_address
         validated_address := formatted_address
         is_valid := (granularity_status validation_granularity).2
         validation_status := status
         is_po_box := some is_po_box
         is_dpv_confirmed := some is_dpv_confirmed
         is_confirmed := some (main_confirmed verdict usps_data region_code enable_usps_cass)
         is_vacant := some (jget usps_data "dpvVacant" (.bool false))
         is_no_stat := some (jget usps_data "dpvNoStat" (.bool false))
         is_cmra := some (jget usps_data "dpvCmra" (.bool false))
         is_undeliverable := some (jget usps_data "undeliverable" (.bool false))
         dpv_confirmation_description := some dpv_confirmation_description }

/-- Lines 116-230: parse_validation_result. The top-level membership test and the
result[error] subscript run outside the try block, so their exceptions escape as
Except.error; everything raised inside tryBody is converted to the Parse Error dict. -/
def parse_validation_result (result : Json) (original_address : String)
    (region_code : String) (enable_usps_cass : Bool) : Except String ParsedResult := do
  let has_error_key ← py_in "error" result
  if has_error_key then
    let err ← py_getitem result "error"
    pure (api_error_result original_address err)
  else
    match tryBody result original_address region_code enable_usps_cass with
    | .ok parsed => pure parsed
    | .error msg => pure (parse_error_result original_address msg)

/-- Shape conditions under which the try body completes without an exception: every
value the source calls .get on is a dict, the granularity is hashable whenever the
line 167 membership runs (has_inferred truthy), and the dpvConfirmation value hashed
by line 192 is hashable. The metadata value is touched only when the region is US
(line 186), so its shape matters only then. -/
def bodyShapeOk (r : Json) (region_code : String) : Bool :=
  let vr := jget r "result" (.obj [])
  let verdict := jget vr "verdict" (.obj [])
  let address_obj := jget vr "address" (.obj [])
  let geocode := jget vr "geocode" (.obj [])
  let location := jget geocode "location" (.obj [])
  let usps_data := jget vr "uspsData" (.obj [])
  let metadata := jget vr "metadata" (.obj [])
  isObj r && isObj vr && isObj verdict && isObj address_obj && isObj geocode &&
    isObj location && isObj usps_data && (!(region_code == "US") || isObj metadata) &&
    (!truthy (jget verdict "hasInferredComponents" (.bool false)) ||
      py_hashable (jget verdict "validationGranularity" (.str "UNKNOWN"))) &&
    py_hashable (jget usps_data "dpvConfirmation" (.str "N/A"))

/-- The ParsedResult built by the main path, expressed with the total jget. It agrees
with tryBody exactly on the inputs satisfying bodyShapeOk (tryBody_eq_ok and
tryBody_ok_inv below). -/
def successRecord (result : Json) (original_address : String) (region_code : String)
    (enable_usps_cass : Bool) : ParsedResult :=
  let validation_result := jget result "result" (.obj [])
  let verdict := jget validation_result "verdict" (.obj [])
  let address_obj := jget validation_result "address" (.obj [])
  let validation_granularity := jget verdict "validationGranularity" (.str "UNKNOWN")
  let has_inferred := jget verdict "hasInferredComponents" (.bool false)
  let usps_data := jget validation_result "uspsData" (.obj [])
  let metadata := jget validation_result "metadata" (.obj [])
  { original_address := original_address
    validated_address := jget address_obj "formattedAddress" (.str original_address)
    is_valid := (granularity_status validation_granularity).2
    validation_status := main_status validation_granularity has_inferred
    is_po_box := some (if region_code == "US" then jget metadata "poBox" (.bool false) else .bool false)
    is_dpv_confirmed := some (if region_code == "US" then jeqStr (jget usps_data "dpvConfirmation" .null) "Y" else false)
    is_confirmed := some (main_confirmed verdict usps_data region_code enable_usps_cass)
    is_vacant := some (jget usps_data "dpvVacant" (.bool false))
    is_no_stat := some (jget usps_data "dpvNoStat" (.bool false))
    is_cmra := some (jget usps_data "dpvCmra" (.bool false))
    is_undeliverable := some (jget usps_data "undeliverable" (.bool false))
    dpv_confirmation_description := some (dpv_code_table (jget usps_data "dpvConfirmation" (.str "N/A"))) }

theorem pure_ok {α : Type} (a : α) : (pure a : Except String α) = .ok a := rfl

theorem bind_ok {α β : Type} (a : α) (f : α → Except String β) :
    ((Except.ok a : Except String α) >>= f) = f a := rfl

theorem bind_eq_ok {α β : Type} {e : Except String α} {f : α → Except String β} {b : β} :
    (e >>= f) = .ok b ↔ ∃ a, e = .ok a ∧ f a = .ok b := by
  cases e <;> simp [Bind.bind, Except.bind]

theorem py_get_obj {j : Json} (key : String) (dflt : Json) (h : isObj j = true) :
    py_get j key dflt = .ok (jget j key dflt) := by
  cases j <;> simp_all [py_get, isObj, jget]

theorem py_get_eq_ok {j : Json} {key : String} {dflt v : Json} :
    py_get j key dflt = .ok v ↔ isObj j = true ∧ v = jget j key dflt := by
  cases j <;> simp [py_get, isObj, jget, eq_comm]

theorem status_with_note_eq_ok {g hi : Json} {s : String} :
    status_with_note g hi = .ok s ↔
      ((!truthy hi || py_hashable g) = true ∧ s = main_status g hi) := by
  unfold status_with_note main_status gran_mailable_mem
  by_cases hhi : truthy hi = true
  · rw [hhi]
    cases g <;> simp [py_hash_check, py_hashable] <;> exact eq_comm
  · rw [Bool.not_eq_true] at hhi
    rw [hhi]
    simp
    exact eq_comm

theorem status_with_note_ok {g hi : Json}
    (h : (!truthy hi || py_hashable g) = true) :
    status_with_note g hi = .ok (main_status g hi) :=
  status_with_note_eq_ok.mpr ⟨h, rfl⟩

theorem map_dpv_eq_ok {code : Json} {s : String} :
    map_dpv_confirmation code = .ok s ↔
      (py_hashable code = true ∧ s = dpv_code_table code) := by
  cases code <;>
    simp [map_dpv_confirmation, py_hash_check, py_hashable, eq_comm]

theorem map_dpv_ok {code : Json} (h : py_hashable code = true) :
    map_dpv_confirmation code = .ok (dpv_code_table code) :=
  map_dpv_eq_ok.mpr ⟨h, rfl⟩

/-- On inputs satisfying bodyShapeOk, the try body succeeds and returns the
successRecord value. -/
theorem tryBody_eq_ok (r : Json) (oa rc : String) (cass : Bool)
    (h : bodyShapeOk r rc = true) :
    tryBody r oa rc cass = .ok (successRecord r oa rc cass) := by
  simp only [bodyShapeOk, Bool.and_eq_true] at h
  obtain ⟨⟨⟨⟨⟨⟨⟨⟨⟨h1, h2⟩, h3⟩, h4⟩, h5⟩, h6⟩, h7⟩, h8⟩, h9⟩, h10⟩ := h
  by_cases hrc : (rc == "US") = true
  · simp only [Bool.not_eq_true', hrc, Bool.not_true, Bool.false_or] at h8
    simp only [tryBody, successRecord, hrc, if_true,
      py_get_obj _ _ h1, py_get_obj _ _ h2, py_get_obj _ _ h3, py_get_obj _ _ h4,
      py_get_obj _ _ h5, py_get_obj _ _ h6, py_get_obj _ _ h7, py_get_obj _ _ h8,
      status_with_note_ok h9, map_dpv_ok h10, bind_ok, pure_ok]
  · rw [Bool.not_eq_true] at hrc
    simp only [Bool.not_eq_true', hrc] at h8
    simp only [tryBody, successRecord, hrc, if_false, Bool.false_eq_true,
      py_get_obj _ _ h1, py_get_obj _ _ h2, py_get_obj _ _ h3, py_get_obj _ _ h4,
      py_get_obj _ _ h5, py_get_obj _ _ h6, py_get_obj _ _ h7,
      status_with_note_ok h9, map_dpv_ok h10, bind_ok, pure_ok]

/-- Conversely, the try body succeeds only on inputs satisfying bodyShapeOk, and its
value is then the successRecord value. -/
theorem tryBody_ok_inv {r : Json} {oa rc : String} {cass : Bool} {out : ParsedResult}
    (h : tryBody r oa rc cass = .ok out) :
    bodyShapeOk r rc = true ∧ out = successRecord r oa rc cass := by
  by_cases hrc : (rc == "US") = true
  · simp only [tryBody, hrc, if_true, bind_eq_ok, py_get_eq_ok,
      status_with_note_eq_ok, map_dpv_eq_ok, pure_ok, Except.ok.injEq] at h
    obtain ⟨a, ⟨o1, rfl⟩, a1, ⟨o2, rfl⟩, a2, ⟨o3, rfl⟩, a3, ⟨o4, rfl⟩, a4, ⟨o5, rfl⟩,
      a5, ⟨o6, rfl⟩, st, ⟨oh1, rfl⟩, a6, ⟨o7, rfl⟩, a7, ⟨o8, rfl⟩, a8, ⟨o9, rfl⟩,
      a9, ⟨o10, rfl⟩, a10, ⟨o11, rfl⟩, a11, ⟨o12, rfl⟩, a12, ⟨o13, rfl⟩,
      apo, ⟨o14, rfl⟩, a13, ⟨o15, rfl⟩, a14, rfl, a15, ⟨o16, rfl⟩,
      dsc, ⟨oh2, rfl⟩, hout⟩ := h
    subst hout
    refine ⟨?_, ?_⟩
    · simp [bodyShapeOk, hrc, o1, o2, o4, o7, o9, o10, o14, o16, oh1, oh2]
    · simp only [successRecord, hrc, if_true]
  · rw [Bool.not_eq_true] at hrc
    simp only [tryBody, hrc, Bool.false_eq_true, if_false, bind_eq_ok, py_get_eq_ok,
      status_with_note_eq_ok, map_dpv_eq_ok, pure_ok, Except.ok.injEq] at h
    obtain ⟨a, ⟨o1, rfl⟩, a1, ⟨o2, rfl⟩, a2, ⟨o3, rfl⟩, a3, ⟨o4, rfl⟩, a4, ⟨o5, rfl⟩,
      a5, ⟨o6, rfl⟩, st, ⟨oh1, rfl⟩, a6, ⟨o7, rfl⟩, a7, ⟨o8, rfl⟩, a8, ⟨o9, rfl⟩,
      a9, ⟨o10, rfl⟩, a10, ⟨o11, rfl⟩, a11, ⟨o12, rfl⟩, a12, ⟨o13, rfl⟩, apo, rfl,
      adpv, rfl, a15, ⟨o16, rfl⟩, dsc, ⟨oh2, rfl⟩, hout⟩ := h
    subst hout
    refine ⟨?_, ?_⟩
    · simp [bodyShapeOk, hrc, o1, o2, o4, o7, o9, o10, o16, oh1, oh2]
    · simp only [successRecord, hrc, Bool.false_eq_true, if_false]

/-- A dict input with a top-level error key takes the short-circuit API error path. -/
theorem parse_error_key {fs : List (String × Json)} (oa rc : String) (cass : Bool)
    (hek : hasKeyFs fs "error" = true) :
    parse_validation_result (.obj fs) oa rc cass =
      .ok (api_error_result oa (jget (.obj fs) "error" .null)) := by
  rcases hv : objFind fs "error" with _ | v
  · simp [hasKeyFs, hv] at hek
  · simp [parse_validation_result, py_in, hasKeyFs, hv, py_getitem, jget, bind_ok, pure_ok]

/-- A dict input without an error key on which the try body raises takes the Parse
Error path. -/
theorem parse_caught {fs : List (String × Json)} (oa rc : String) (cass : Bool)
    (msg : String) (hek : hasKeyFs fs "error" = false)
    (htb : tryBody (.obj fs) oa rc cass = .error msg) :
    parse_validation_result (.obj fs) oa rc cass = .ok (parse_error_result oa msg) := by
  simp [parse_validation_result, py_in, hek, htb, bind_ok, pure_ok]

/-- A dict input without an error key that satisfies bodyShapeOk takes the main path
and yields the successRecord value. -/
theorem parse_main {fs : List (String × Json)} (oa rc : String) (cass : Bool)
    (hek : hasKeyFs fs "error" = false) (hsh : bodyShapeOk (.obj fs) rc = true) :
    parse_validation_result (.obj fs) oa rc cass =
      .ok (successRecord (.obj fs) oa rc cass) := by
  simp [parse_validation_result, py_in, hek, tryBody_eq_ok _ oa rc cass hsh,
    bind_ok, pure_ok]

/-- Every dict input produces a returned dict: the two escape hatches convert every
exception raised past the error-key test into an ordinary result. -/
theorem parse_total (fs : List (String × Json)) (oa rc : String) (cass : Bool) :
    ∃ out, parse_validation_result (.obj fs) oa rc cass = .ok out := by
  by_cases hek : hasKeyFs fs "error" = true
  · exact ⟨_, parse_error_key oa rc cass hek⟩
  · rw [Bool.not_eq_true] at hek
    rcases htb : tryBody (.obj fs) oa rc cass with msg | out
    · exact ⟨_, parse_caught oa rc cass msg hek htb⟩
    · simp [parse_validation_result, py_in, hek, htb, bind_ok, pure_ok]

/-- Every returned result comes from one of the three paths: the API error record,
the Parse Error record, or the main-path record on a bodyShapeOk input. -/
theorem parse_ok_cases {r : Json} {oa rc : String} {cass : Bool} {out : ParsedResult}
    (h : parse_validation_result r oa rc cass = .ok out) :
    (∃ v, out = api_error_result oa v) ∨
    (∃ msg, tryBody r oa rc cass = .error msg ∧ out = parse_error_result oa msg) ∨
    (bodyShapeOk r rc = true ∧ out = successRecord r oa rc cass) := by
  unfold parse_validation_result at h
  rcases hin : py_in "error" r with e | b
  · rw [hin] at h
    have h2 : (Except.error e : Except String ParsedResult) = .ok out := h
    injection h2
  · rw [hin, bind_ok] at h
    cases b with
    | true =>
      simp only [if_true] at h
      rcases bind_eq_ok.mp h with ⟨v, _, h2⟩
      have h3 : (Except.ok (api_error_result oa v) : Except String ParsedResult) =
          .ok out := h2
      injection h3 with h3
      exact Or.inl ⟨v, h3.symm⟩
    | false =>
      simp only [Bool.false_eq_true, if_false] at h
      rcases htb : tryBody r oa rc cass with msg | res
      · rw [htb] at h
        have h2 : (Except.ok (parse_error_result oa msg) : Except String ParsedResult) =
            .ok out := h
        injection h2 with h2
        exact Or.inr (Or.inl ⟨msg, rfl, h2.symm⟩)
      · rw [htb] at h
        have h2 : (Except.ok res : Except String ParsedResult) = .ok out := h
        injection h2 with h2
        obtain ⟨hsh, hrec⟩ := tryBody_ok_inv htb
        exact Or.inr (Or.inr ⟨hsh, h2.symm.trans hrec⟩)

/-- One address component of a geocode result: the long_name, short_name and type
tags read on lines 38-49. -/
structure GeocodeComponent where
  long_name : String
  short_name : String
  types : List String

/-- The first geocode result, restricted to the two fields build_validation_request
reads (lines 32-33): the ordered component list and the formatted address. -/
structure GeocodeResult where
  address_components : List GeocodeComponent
  formatted_address : String

/-- The components dict built on lines 35-65, together with addressLines. -/
structure ValidationRequestAddress where
  locality : Option String := none
  administrativeArea : Option String := none
  regionCode : Option String := none
  postalCode : Option String := none
  addressLines : List String := []

/-- The request body (lines 67-69): a single address key. -/
structure ValidationRequest where
  address : ValidationRequestAddress

/-- Line 39: any(t in types for t in [point_of_interest, establishment, university]). -/
def is_poi_component (comp : GeocodeComponent) : Bool :=
  ["point_of_interest", "establishment", "university"].any (fun t => comp.types.contains t)

/-- Lines 40-41: append the long name to poi_names unless already present. -/
def poi_update (poi_names : List String) (comp : GeocodeComponent) : List String :=
  if comp.long_name ∈ poi_names then poi_names else poi_names ++ [comp.long_name]

/-- The poi_names half of one iteration of the loop on lines 37-49: only the poi
branch touches poi_names. -/
def poi_step (poi_names : List String) (comp : GeocodeComponent) : List String :=
  if is_poi_component comp then poi_update poi_names comp else poi_names

/-- The components half of one iteration of the loop on lines 37-49: the elif chain,
first matching category wins, and the poi branch leaves the dict unchanged. -/
def dict_step (components : ValidationRequestAddress) (comp : GeocodeComponent) :
    ValidationRequestAddress :=
  if is_poi_component comp then components
  else if comp.types.contains "locality" then
    { components with locality := some comp.long_name }
  else if comp.types.contains "administrative_area_level_1" then
    { components with administrativeArea := some comp.short_name }
  else if comp.types.contains "country" then
    { components with regionCode := some comp.short_name }
  else if comp.types.contains "postal_code" then
    { components with postalCode := some comp.long_name }
  else components

/-- One iteration of the loop on lines 37-49: each branch updates exactly one of the
two accumulators, so the iteration is the pair of the two independent halves. -/
def component_step (acc : ValidationRequestAddress × List String)
    (comp : GeocodeComponent) : ValidationRequestAddress × List String :=
  (dict_step acc.1 comp, poi_step acc.2 comp)

/-- Lines 31-69: build_validation_request. The original input is inserted at index 0
when absent, the formatted address appended at the end when absent, and regionCode
defaults to US via setdefault. -/
def build_validation_request (geocode_result : GeocodeResult) (original_input : String) :
    ValidationRequest :=
  let acc := geocode_result.address_components.foldl component_step ({}, [])
  let components := acc.1
  let poi_names := acc.2
  let address_lines := poi_names
  let address_lines := if original_input ∈ address_lines then address_lines
    else original_input :: address_lines
  let address_lines := if geocode_result.formatted_address ∈ address_lines then address_lines
    else address_lines ++ [geocode_result.formatted_address]
  { address :=
      { components with
        regionCode := some (components.regionCode.getD "US")
        addressLines := address_lines } }

theorem foldl_component_snd (comps : List GeocodeComponent)
    (acc : ValidationRequestAddress × List String) :
    (comps.foldl component_step acc).2 = comps.foldl poi_step acc.2 := by
  induction comps generalizing acc with
  | nil => rfl
  | cons comp rest ih => rw [List.foldl_cons, List.foldl_cons, ih]; rfl

theorem poi_foldl_sublist (comps : List GeocodeComponent) (p : List String) :
    List.Sublist (comps.foldl poi_step p) (p ++ comps.map GeocodeComponent.long_name) := by
  induction comps generalizing p with
  | nil => simp
  | cons comp rest ih =>
    rw [List.foldl_cons, List.map_cons]
    refine (ih _).trans ?_
    unfold poi_step poi_update
    by_cases hp : is_poi_component comp = true
    · by_cases hm : comp.long_name ∈ p
      · simp only [hp, if_true, hm]
        exact List.Sublist.append_left (List.sublist_cons_self _ _) p
      · simp only [hp, if_true, hm, if_false, List.append_assoc, List.singleton_append]
        exact List.Sublist.refl _
    · simp only [hp, Bool.false_eq_true, if_false]
      exact List.Sublist.append_left (List.sublist_cons_self _ _) p

theorem poi_foldl_nodup (comps : List GeocodeComponent) (p : List String)
    (hp : p.Nodup) : (comps.foldl poi_step p).Nodup := by
  induction comps generalizing p with
  | nil => exact hp
  | cons comp rest ih =>
    rw [List.foldl_cons]
    refine ih _ ?_
    unfold poi_step poi_update
    by_cases h1 : is_poi_component comp = true
    · by_cases h2 : comp.long_name ∈ p
      · simp [h1, h2, hp]
      · simp [h1, h2, List.nodup_append, hp]
    · simp [h1, hp]

theorem address_lines_eq (g : GeocodeResult) (oi : String) :
    (build_validation_request g oi).address.addressLines =
      (let p := g.address_components.foldl poi_step []
       let l := if oi ∈ p then p else oi :: p
       if g.formatted_address ∈ l then l else l ++ [g.formatted_address]) := by
  simp only [build_validation_request, foldl_component_snd]

theorem address_lines_nodup (g : GeocodeResult) (oi : String) :
    ((build_validation_request g oi).address.addressLines).Nodup := by
  rw [address_lines_eq]
  have hpoi : (g.address_components.foldl poi_step []).Nodup :=
    poi_foldl_nodup _ _ List.nodup_nil
  by_cases h1 : oi ∈ g.address_components.foldl poi_step []
  · simp only [h1, if_true]
    by_cases h2 : g.formatted_address ∈ g.address_components.foldl poi_step []
    · simp [h2, hpoi]
    · simp [h2, List.nodup_append, hpoi]
  · simp only [h1, if_false]
    have hcons : (oi :: g.address_components.foldl poi_step []).Nodup := by
      simp [List.nodup_cons, h1, hpoi]
    by_cases h2 : g.formatted_address ∈ oi :: g.address_components.foldl poi_step []
    · simp [h1, h2, hcons]
    · rw [List.mem_cons, not_or] at h2
      obtain ⟨h2a, h2b⟩ := h2
      have hne : ¬oi = g.formatted_address := fun h => h2a h.symm
      simp [List.mem_cons, h2a, h2b, List.nodup_append, List.nodup_cons, h1, hpoi, hne]

/-- The dict stored under the result key, default empty (line 133). -/
def resultOf (r : Json) : Json := jget r "result" (.obj [])

/-- The verdict sub-object (line 134). -/
def verdictOf (r : Json) : Json := jget (resultOf r) "verdict" (.obj [])

/-- The address sub-object (line 135). -/
def addressOf (r : Json) : Json := jget (resultOf r) "address" (.obj [])

/-- The uspsData sub-object (line 183). -/
def uspsOf (r : Json) : Json := jget (resultOf r) "uspsData" (.obj [])

/-- The metadata sub-object (line 184). -/
def metadataOf (r : Json) : Json := jget (resultOf r) "metadata" (.obj [])

/-- The granularity value with the UNKNOWN default (line 137). -/
def granularityOf (r : Json) : Json := jget (verdictOf r) "validationGranularity" (.str "UNKNOWN")

/-- Projection of the is_confirmed value out of a classifier outcome. -/
def is_confirmed_of : Except String ParsedResult → Option Json
  | .ok o => o.is_confirmed
  | .error _ => none

/-- Projection of the validation_status value out of a classifier outcome. -/
def validation_status_of : Except String ParsedResult → Option String
  | .ok o => some o.validation_status
  | .error _ => none

/-- Projection of the dpv_confirmation_description value out of a classifier outcome. -/
def dpv_description_of : Except String ParsedResult → Option String
  | .ok o => o.dpv_confirmation_description
  | .error _ => none

theorem ne_empty_of_length_pos {s : String} (h : 0 < s.length) : s ≠ "" := by
  intro he
  rw [he] at h
  exact absurd h (by decide)

theorem length_pos_of_ne_empty {s : String} (h : s ≠ "") : 0 < s.length := by
  cases s with
  | mk ds =>
    cases ds with
    | nil => exact absurd rfl h
    | cons c cs => simp [String.length]

theorem append_ne_empty_left {s t : String} (h : s ≠ "") : s ++ t ≠ "" := by
  apply ne_empty_of_length_pos
  rw [String.length_append]
  have := length_pos_of_ne_empty h
  omega

theorem granularity_status_fst_ne_empty (g : Json) : (granularity_status g).1 ≠ "" := by
  unfold granularity_status
  split_ifs <;> decide

theorem main_status_ne_empty (g hi : Json) : main_status g hi ≠ "" := by
  unfold main_status
  split_ifs
  · exact append_ne_empty_left (granularity_status_fst_ne_empty g)
  · exact granularity_status_fst_ne_empty g

theorem ne_append_inferred_note (s : String) : s ≠ s ++ inferred_note := by
  intro h
  have hl := congrArg String.length h
  rw [String.length_append] at hl
  have hn : 0 < inferred_note.length := by decide
  omega

theorem truthy_bool (b : Bool) : truthy (.bool b) = b := rfl

theorem pyAnd_chain7 (m : Bool) (ac : Json) (x1 x2 x3 x4 x5 : Bool) :
    pyAnd (pyAnd (pyAnd (pyAnd (pyAnd (pyAnd (Json.bool m) ac)
        (.bool x1)) (.bool x2)) (.bool x3)) (.bool x4)) (.bool x5) = Json.bool true ↔
      (m = true ∧ truthy ac = true ∧ x1 = true ∧ x2 = true ∧ x3 = true ∧ x4 = true ∧
        x5 = true) := by
  cases m with
  | false => simp [pyAnd, truthy_bool]
  | true =>
    by_cases hac : truthy ac = true
    · cases x1 <;> cases x2 <;> cases x3 <;> cases x4 <;> cases x5 <;>
        simp [pyAnd, truthy_bool, hac]
    · rw [Bool.not_eq_true] at hac
      simp only [pyAnd, truthy_bool, hac, Bool.false_eq_true, if_false, if_true]
      simp only [hac, Bool.false_eq_true, false_and, and_false, iff_false]
      intro h
      subst h
      exact absurd hac (by decide)

theorem pyAnd_chain7_truthy (m : Bool) (ac : Json) (x1 x2 x3 x4 x5 : Bool) :
    truthy (pyAnd (pyAnd (pyAnd (pyAnd (pyAnd (pyAnd (Json.bool m) ac)
        (.bool x1)) (.bool x2)) (.bool x3)) (.bool x4)) (.bool x5)) = true ↔
      pyAnd (pyAnd (pyAnd (pyAnd (pyAnd (pyAnd (Json.bool m) ac)
        (.bool x1)) (.bool x2)) (.bool x3)) (.bool x4)) (.bool x5) = Json.bool true := by
  cases m with
  | false => simp [pyAnd, truthy_bool]
  | true =>
    by_cases hac : truthy ac = true
    · cases x1 <;> cases x2 <;> cases x3 <;> cases x4 <;> cases x5 <;>
        simp [pyAnd, truthy_bool, hac]
    · rw [Bool.not_eq_true] at hac
      simp only [pyAnd, truthy_bool, hac, Bool.false_eq_true, if_false, if_true]
      constructor
      · intro h; exact h.elim
      · intro h; subst h; exact absurd hac (by decide)

theorem confirmed_chain_eq_true (verdict : Json) :
    confirmed_chain verdict = Json.bool true ↔
      (gran_premise_level (jget verdict "validationGranularity" .null) = true ∧
       truthy (jget verdict "addressComplete" .null) = true ∧
       truthy (jget verdict "hasInferredComponents" .null) = false ∧
       truthy (jget verdict "hasReplacedComponents" .null) = false ∧
       truthy (jget verdict "unconfirmedComponentTypes" .null) = false ∧
       truthy (jget verdict "missingComponentTypes" .null) = false ∧
       truthy (jget verdict "unresolvedTokens" .null) = false) := by
  unfold confirmed_chain
  rw [pyAnd_chain7]
  simp [Bool.not_eq_true']

theorem confirmed_chain_truthy (verdict : Json) :
    truthy (confirmed_chain verdict) = true ↔
      confirmed_chain verdict = Json.bool true := by
  unfold confirmed_chain
  exact pyAnd_chain7_truthy _ _ _ _ _ _ _

theorem main_confirmed_eq_true (verdict usps_data : Json) (rc : String) (cass : Bool) :
    main_confirmed verdict usps_data rc cass = Json.bool true ↔
      (confirmed_chain verdict = Json.bool true ∧
       (((rc == "US") && cass) = true →
         jeqStr (jget usps_data "dpvConfirmation" .null) "Y" = true)) := by
  unfold main_confirmed
  by_cases hg : ((rc == "US") && cass) = true
  · simp only [hg, if_true]
    by_cases ht : truthy (confirmed_chain verdict) = true
    · have hc0 := (confirmed_chain_truthy verdict).mp ht
      simp [pyAnd, ht, hc0, hg, truthy_bool]
    · rw [Bool.not_eq_true] at ht
      simp only [pyAnd, ht, Bool.false_eq_true, if_false, hg, forall_const]
      constructor
      · intro h
        rw [h] at ht
        exact absurd ht (by decide)
      · rintro ⟨h1, _⟩
        exact h1
  · rw [Bool.not_eq_true] at hg
    simp [hg]

/-- Sample dict payload with a PREMISE verdict, used to witness C1. -/
def c1_sample : List (String × Json) :=
  [("result", .obj [("verdict", .obj [("validationGranularity", .str "PREMISE")])])]

/-- Payload for the C1 counterexample: a PREMISE verdict whose table row would be
(Standard Mailable, true), together with a list-valued dpvConfirmation. -/
def c1_cex : List (String × Json) :=
  [("result", .obj [("verdict", .obj [("validationGranularity", .str "PREMISE")]),
                    ("uspsData", .obj [("dpvConfirmation", .arr [])])])]

/-- C1 counterexample: at granularity PREMISE with a list-valued dpvConfirmation the
program does not produce the PREMISE table row: line 192 hashes the code, raises
TypeError, and the result is the Parse Error record with is_valid false. -/
theorem claim_granularity_table_cex :
    parse_validation_result (.obj c1_cex) "a" "US" true =
      .ok (parse_error_result "a" "unhashable type: \x27list\x27") ∧
    (parse_error_result "a" "unhashable type: \x27list\x27").is_valid = false ∧
    (parse_error_result "a" "unhashable type: \x27list\x27").validation_status ≠
      "Standard Mailable Address (Validated to building)" := by
  refine ⟨rfl, rfl, ?_⟩
  intro h
  exact absurd h (by decide)

/-- C1 amended: on every payload where parsing completes without an exception,
parse_validation_result maps the granularity value to (validation_status, is_valid)
per the fixed eight-row table, where the table text is the status up to the optional
inferred-components note; any other or missing granularity takes the
unknown-granularity row. Payloads that raise inside the try block, such as an
unhashable dpvConfirmation, take the Parse Error path instead. -/
theorem claim_granularity_table :
    (granularity_status (.str "SUB_PREMISE") =
        ("Highly Mailable Address (Validated to sub-unit)", true) ∧
      granularity_status (.str "PREMISE") =
        ("Standard Mailable Address (Validated to building)", true) ∧
      granularity_status (.str "STREET") =
        ("Partial Address (Street-level only, may not be reliably mailable)", true) ∧
      granularity_status (.str "LOCALITY") =
        ("Non-Mailable Address (Only city-level validated)", false) ∧
      granularity_status (.str "REGION") =
        ("Non-Mailable Address (Only region/state validated)", false) ∧
      granularity_status (.str "COUNTRY") =
        ("Non-Mailable Address (Only country validated)", false) ∧
      granularity_status (.str "OTHER") =
        ("Non-Mailable Address (Unknown or unvalidated)", false)) ∧
    (∀ g : Json, jeqStr g "SUB_PREMISE" = false → jeqStr g "PREMISE" = false →
      jeqStr g "STREET" = false → jeqStr g "LOCALITY" = false →
      jeqStr g "REGION" = false → jeqStr g "COUNTRY" = false → jeqStr g "OTHER" = false →
      granularity_status g = ("Non-Mailable Address (Unknown validation granularity)", false)) ∧
    (∀ (fs : List (String × Json)) (oa rc : String) (cass : Bool)
      (out : ParsedResult),
      hasKeyFs fs "error" = false → bodyShapeOk (.obj fs) rc = true →
      parse_validation_result (.obj fs) oa rc cass = .ok out →
      out.is_valid = (granularity_status (granularityOf (.obj fs))).2 ∧
      (out.validation_status = (granularity_status (granularityOf (.obj fs))).1 ∨
       out.validation_status =
         (granularity_status (granularityOf (.obj fs))).1 ++ inferred_note)) := by
  refine ⟨⟨rfl, rfl, rfl, rfl, rfl, rfl, rfl⟩, ?_, ?_⟩
  · intro g h1 h2 h3 h4 h5 h6 h7
    unfold granularity_status
    simp [h1, h2, h3, h4, h5, h6, h7]
  · intro fs oa rc cass out hek hsh hout
    rw [parse_main oa rc cass hek hsh] at hout
    injection hout with hout
    subst hout
    constructor
    · simp [successRecord, granularityOf, verdictOf, resultOf]
    · simp only [successRecord, main_status, granularityOf, verdictOf, resultOf]
      split_ifs
      · right; rfl
      · left; rfl

/-- Witness for C1 at the sample payload: a PREMISE verdict is classified by the
PREMISE table row. -/
theorem claim_granularity_table_witness :
    (successRecord (.obj c1_sample) "77 Mass Ave" "US" true).is_valid =
        (granularity_status (granularityOf (.obj c1_sample))).2 ∧
      ((successRecord (.obj c1_sample) "77 Mass Ave" "US" true).validation_status =
          (granularity_status (granularityOf (.obj c1_sample))).1 ∨
        (successRecord (.obj c1_sample) "77 Mass Ave" "US" true).validation_status =
          (granularity_status (granularityOf (.obj c1_sample))).1 ++ inferred_note) :=
  claim_granularity_table.2.2 c1_sample "77 Mass Ave" "US" true
    (successRecord (.obj c1_sample) "77 Mass Ave" "US" true) (by decide) (by decide)
    (parse_main "77 Mass Ave" "US" true (by decide) (by decide))

/-- Parametrized main-path payload used by the C2 flip tests: a full verdict plus a
uspsData dpvConfirmation code. -/
def c2_payload (g ac hi hr uc mc ut dpv : Json) : List (String × Json) :=
  [("result", .obj
    [("verdict", .obj
      [("validationGranularity", g), ("addressComplete", ac),
       ("hasInferredComponents", hi), ("hasReplacedComponents", hr),
       ("unconfirmedComponentTypes", uc), ("missingComponentTypes", mc),
       ("unresolvedTokens", ut)]),
     ("uspsData", .obj [("dpvConfirmation", dpv)])])]

/-- The all-conditions-pass instance: PREMISE, complete, nothing inferred or replaced,
the three component collections empty, with a chosen DPV code. -/
def c2_good (dpv : Json) : List (String × Json) :=
  c2_payload (.str "PREMISE") (.bool true) (.bool false) (.bool false)
    (.arr []) (.arr []) (.arr []) dpv

/-- C2: on every input whatsoever, is_confirmed is the bool true only if the seven
verdict conditions hold and, when the region is US with CASS enabled, dpvConfirmation
is Y; on the main path the conjunction is exact; and flipping any single condition to
its failing value at the all-good payload flips is_confirmed to the bool false, while
disabling CASS lifts the DPV requirement. -/
theorem claim_confirmed_conditions :
    (∀ (r : Json) (oa rc : String) (cass : Bool) (out : ParsedResult),
      parse_validation_result r oa rc cass = .ok out →
      out.is_confirmed = some (Json.bool true) →
      (gran_premise_level (jget (verdictOf r) "validationGranularity" .null) = true ∧
       truthy (jget (verdictOf r) "addressComplete" .null) = true ∧
       truthy (jget (verdictOf r) "hasInferredComponents" .null) = false ∧
       truthy (jget (verdictOf r) "hasReplacedComponents" .null) = false ∧
       truthy (jget (verdictOf r) "unconfirmedComponentTypes" .null) = false ∧
       truthy (jget (verdictOf r) "missingComponentTypes" .null) = false ∧
       truthy (jget (verdictOf r) "unresolvedTokens" .null) = false ∧
       (((rc == "US") && cass) = true →
         jeqStr (jget (uspsOf r) "dpvConfirmation" .null) "Y" = true))) ∧
    (∀ (fs : List (String × Json)) (oa rc : String) (cass : Bool) (out : ParsedResult),
      hasKeyFs fs "error" = false → bodyShapeOk (.obj fs) rc = true →
      parse_validation_result (.obj fs) oa rc cass = .ok out →
      (out.is_confirmed = some (Json.bool true) ↔
        (gran_premise_level (jget (verdictOf (.obj fs)) "validationGranularity" .null) = true ∧
         truthy (jget (verdictOf (.obj fs)) "addressComplete" .null) = true ∧
         truthy (jget (verdictOf (.obj fs)) "hasInferredComponents" .null) = false ∧
         truthy (jget (verdictOf (.obj fs)) "hasReplacedComponents" .null) = false ∧
         truthy (jget (verdictOf (.obj fs)) "unconfirmedComponentTypes" .null) = false ∧
         truthy (jget (verdictOf (.obj fs)) "missingComponentTypes" .null) = false ∧
         truthy (jget (verdictOf (.obj fs)) "unresolvedTokens" .null) = false ∧
         (((rc == "US") && cass) = true →
           jeqStr (jget (uspsOf (.obj fs)) "dpvConfirmation" .null) "Y" = true)))) ∧
    (is_confirmed_of (parse_validation_result (.obj (c2_good (.str "Y"))) "a" "US" true) =
        some (.bool true) ∧
      is_confirmed_of (parse_validation_result (.obj (c2_payload (.str "STREET") (.bool true)
          (.bool false) (.bool false) (.arr []) (.arr []) (.arr []) (.str "Y"))) "a" "US" true) =
        some (.bool false) ∧
      is_confirmed_of (parse_validation_result (.obj (c2_payload (.str "PREMISE") (.bool false)
          (.bool false) (.bool false) (.arr []) (.arr []) (.arr []) (.str "Y"))) "a" "US" true) =
        some (.bool false) ∧
      is_confirmed_of (parse_validation_result (.obj (c2_payload (.str "PREMISE") (.bool true)
          (.bool true) (.bool false) (.arr []) (.arr []) (.arr []) (.str "Y"))) "a" "US" true) =
        some (.bool false) ∧
      is_confirmed_of (parse_validation_result (.obj (c2_payload (.str "PREMISE") (.bool true)
          (.bool false) (.bool true) (.arr []) (.arr []) (.arr []) (.str "Y"))) "a" "US" true) =
        some (.bool false) ∧
      is_confirmed_of (parse_validation_result (.obj (c2_payload (.str "PREMISE") (.bool true)
          (.bool false) (.bool false) (.arr [.str "route"]) (.arr []) (.arr []) (.str "Y"))) "a" "US" true) =
        some (.bool false) ∧
      is_confirmed_of (parse_validation_result (.obj (c2_payload (.str "PREMISE") (.bool true)
          (.bool false) (.bool false) (.arr []) (.arr [.str "postal_code"]) (.arr []) (.str "Y"))) "a" "US" true) =
        some (.bool false) ∧
      is_confirmed_of (parse_validation_result (.obj (c2_payload (.str "PREMISE") (.bool true)
          (.bool false) (.bool false) (.arr []) (.arr []) (.arr [.str "suite"]) (.str "Y"))) "a" "US" true) =
        some (.bool false) ∧
      is_confirmed_of (parse_validation_result (.obj (c2_good (.str "N"))) "a" "US" true) =
        some (.bool false) ∧
      is_confirmed_of (parse_validation_result (.obj (c2_good (.str "N"))) "a" "US" false) =
        some (.bool true)) := by
  refine ⟨?_, ?_, rfl, rfl, rfl, rfl, rfl, rfl, rfl, rfl, rfl, rfl⟩
  · intro r oa rc cass out hout hconf
    rcases parse_ok_cases hout with ⟨v, rfl⟩ | ⟨msg, _, rfl⟩ | ⟨_, rfl⟩
    · exact absurd hconf (by simp [api_error_result])
    · exact absurd hconf (by simp [parse_error_result])
    · rw [show (successRecord r oa rc cass).is_confirmed =
          some (main_confirmed (verdictOf r) (uspsOf r) rc cass) from rfl,
        Option.some.injEq, main_confirmed_eq_true, confirmed_chain_eq_true] at hconf
      tauto
  · intro fs oa rc cass out hek hsh hout
    rw [parse_main oa rc cass hek hsh] at hout
    injection hout with hout
    subst hout
    rw [show (successRecord (.obj fs) oa rc cass).is_confirmed =
        some (main_confirmed (verdictOf (.obj fs)) (uspsOf (.obj fs)) rc cass) from rfl]
    rw [Option.some.injEq, main_confirmed_eq_true, confirmed_chain_eq_true]
    tauto

/-- Witness for C2 at the all-good payload with DPV code Y and CASS enabled: the iff
instance holds there. -/
theorem claim_confirmed_conditions_witness :
    (successRecord (.obj (c2_good (.str "Y"))) "a" "US" true).is_confirmed =
        some (Json.bool true) ↔
      (gran_premise_level (jget (verdictOf (.obj (c2_good (.str "Y"))))
          "validationGranularity" .null) = true ∧
       truthy (jget (verdictOf (.obj (c2_good (.str "Y")))) "addressComplete" .null) = true ∧
       truthy (jget (verdictOf (.obj (c2_good (.str "Y")))) "hasInferredComponents" .null) = false ∧
       truthy (jget (verdictOf (.obj (c2_good (.str "Y")))) "hasReplacedComponents" .null) = false ∧
       truthy (jget (verdictOf (.obj (c2_good (.str "Y")))) "unconfirmedComponentTypes" .null) = false ∧
       truthy (jget (verdictOf (.obj (c2_good (.str "Y")))) "missingComponentTypes" .null) = false ∧
       truthy (jget (verdictOf (.obj (c2_good (.str "Y")))) "unresolvedTokens" .null) = false ∧
       ((("US" == "US") && true) = true →
         jeqStr (jget (uspsOf (.obj (c2_good (.str "Y")))) "dpvConfirmation" .null) "Y" = true)) :=
  claim_confirmed_conditions.2.1 (c2_good (.str "Y")) "a" "US" true
    (successRecord (.obj (c2_good (.str "Y"))) "a" "US" true) (by decide) (by decide)
    (parse_main "a" "US" true (by decide) (by decide))

/-- C3 counterexample: on the None input, the top-level membership test of line 120
runs outside the try block and raises an uncaught TypeError, so parse_validation_result
is not total on payloads of arbitrary shape. -/
theorem claim_parse_totality_cex :
    parse_validation_result .null "123 Main St" "US" true =
      .error "TypeError: argument of type \x27NoneType\x27 is not iterable" := rfl

/-- C3 amended: on every dict input, parse_validation_result is total, and every
exception raised inside the try block is converted to a result with is_valid false,
status Parse Error plus the message, and the original address echoed back. -/
theorem claim_parse_totality_amended :
    (∀ (fs : List (String × Json)) (oa rc : String) (cass : Bool),
      ∃ out, parse_validation_result (.obj fs) oa rc cass = .ok out) ∧
    (∀ (fs : List (String × Json)) (oa rc : String) (cass : Bool) (msg : String),
      hasKeyFs fs "error" = false → tryBody (.obj fs) oa rc cass = .error msg →
      parse_validation_result (.obj fs) oa rc cass = .ok
        { original_address := oa
          validated_address := .str oa
          is_valid := false
          validation_status := "Parse Error: " ++ msg
          lat := some .null
          lng := some .null
          usps_data := some .null }) ∧
    (parse_validation_result (.obj [("result", .num 5)]) "a" "US" true =
      .ok (parse_error_result "a" "\x27int\x27 object has no attribute \x27get\x27")) := by
  refine ⟨parse_total, ?_, rfl⟩
  intro fs oa rc cass msg hek htb
  exact parse_caught oa rc cass msg hek htb

/-- Witness for C3 amended: a dict whose result value is a string makes the get on
line 134 raise, and the classifier converts that into the Parse Error record. -/
theorem claim_parse_totality_amended_witness :
    parse_validation_result (.obj [("result", .str "oops")]) "b" "FR" false =
      .ok { original_address := "b"
            validated_address := .str "b"
            is_valid := false
            validation_status := "Parse Error: " ++ "\x27str\x27 object has no attribute \x27get\x27"
            lat := some .null
            lng := some .null
            usps_data := some .null } :=
  claim_parse_totality_amended.2.1 [("result", .str "oops")] "b" "FR" false
    "\x27str\x27 object has no attribute \x27get\x27" (by decide) (by rfl)

/-- The geocode result of the Harvard example from the specification. -/
def harvard_geocode : GeocodeResult :=
  { address_components :=
      [{ long_name := "Harvard University", short_name := "Harvard University",
         types := ["establishment", "point_of_interest", "university"] },
       { long_name := "Cambridge", short_name := "Cambridge",
         types := ["locality", "political"] },
       { long_name := "Massachusetts", short_name := "MA",
         types := ["administrative_area_level_1", "political"] },
       { long_name := "United States", short_name := "US",
         types := ["country", "political"] },
       { long_name := "02138", short_name := "02138", types := ["postal_code"] }],
    formatted_address := "Cambridge, MA 02138" }

/-- C4 counterexample: list.insert(0, original_input) on line 58 puts the original
input at the front of the whole list, before the poi names, so the claimed order
[poi names, original, formatted] does not hold. -/
theorem claim_address_lines_cex :
    (build_validation_request harvard_geocode "Harvard").address.addressLines ≠
      ["Harvard University", "Harvard", "Cambridge, MA 02138"] := by decide

/-- C4 amended: addressLines is the deduplicated poi names in encounter order, with
the original input inserted at the front of the whole list when not already a poi
name, and the formatted address appended when not already present; the list never
holds a duplicate, and on the Harvard example it is
[Harvard, Harvard University, Cambridge MA 02138]. -/
theorem claim_address_lines_amended :
    (∀ comps : List GeocodeComponent,
      (comps.foldl poi_step []).Nodup ∧
      List.Sublist (comps.foldl poi_step []) (comps.map GeocodeComponent.long_name)) ∧
    (∀ (g : GeocodeResult) (oi : String),
      (build_validation_request g oi).address.addressLines =
        (let p := g.address_components.foldl poi_step []
         let l := if oi ∈ p then p else oi :: p
         if g.formatted_address ∈ l then l else l ++ [g.formatted_address])) ∧
    (∀ (g : GeocodeResult) (oi : String),
      ((build_validation_request g oi).address.addressLines).Nodup) ∧
    ((build_validation_request harvard_geocode "Harvard").address.addressLines =
      ["Harvard", "Harvard University", "Cambridge, MA 02138"]) ∧
    ((build_validation_request harvard_geocode "Harvard University").address.addressLines =
      ["Harvard University", "Cambridge, MA 02138"]) := by
  refine ⟨?_, address_lines_eq, address_lines_nodup, by decide, by decide⟩
  intro comps
  refine ⟨poi_foldl_nodup comps [] List.nodup_nil, ?_⟩
  have h := poi_foldl_sublist comps []
  rwa [List.nil_append] at h

/-- Witness for C4 amended at the Harvard components: the poi names are deduplicated
and keep encounter order. -/
theorem claim_address_lines_amended_witness :
    (harvard_geocode.address_components.foldl poi_step []).Nodup ∧
      List.Sublist (harvard_geocode.address_components.foldl poi_step [])
        (harvard_geocode.address_components.map GeocodeComponent.long_name) :=
  claim_address_lines_amended.1 harvard_geocode.address_components

/-- C5: a top-level error key short-circuits into the API Error record: is_valid
false, status API Error plus the stringified error value, the original address echoed,
and every USPS flag key absent. -/
theorem claim_api_error_path :
    ∀ (fs : List (String × Json)) (oa rc : String) (cass : Bool),
      hasKeyFs fs "error" = true →
      parse_validation_result (.obj fs) oa rc cass = .ok
        { original_address := oa
          validated_address := .str oa
          is_valid := false
          validation_status := "API Error: " ++ pyStr (jget (.obj fs) "error" .null)
          lat := some .null
          lng := some .null
          usps_data := some .null } := by
  intro fs oa rc cass hek
  exact parse_error_key oa rc cass hek

/-- Witness for C5 at a concrete error payload. -/
theorem claim_api_error_path_witness :
    parse_validation_result (.obj [("error", .str "HTTP 500")]) "x" "US" true =
      .ok { original_address := "x"
            validated_address := .str "x"
            is_valid := false
            validation_status := "API Error: HTTP 500"
            lat := some .null
            lng := some .null
            usps_data := some .null } :=
  claim_api_error_path [("error", .str "HTTP 500")] "x" "US" true (by decide)

/-- Payload for the C6 counterexample: a poBox marker plus a list-valued
dpvConfirmation under region US. -/
def c6_cex : List (String × Json) :=
  [("result", .obj [("metadata", .obj [("poBox", .bool true)]),
                    ("uspsData", .obj [("dpvConfirmation", .arr [])])])]

/-- C6 counterexample: with region US and metadata.poBox true, the list-valued
dpvConfirmation makes line 192 raise after the flags were computed, so the returned
Parse Error record carries no is_po_box key at all, not the poBox value the claim
asserts. -/
theorem claim_region_gating_cex :
    parse_validation_result (.obj c6_cex) "x" "US" true =
      .ok (parse_error_result "x" "unhashable type: \x27list\x27") ∧
    (parse_error_result "x" "unhashable type: \x27list\x27").is_po_box = none ∧
    jget (metadataOf (.obj c6_cex)) "poBox" (.bool false) = .bool true ∧
    (none : Option Json) ≠ some (Json.bool true) := by
  refine ⟨rfl, rfl, rfl, ?_⟩
  intro h
  exact Option.noConfusion h

/-- C6 amended: on every payload where parsing completes without an exception, both
USPS-derived flags are forced false outside the US region regardless of payload
content, and in the US they mirror metadata.poBox and dpvConfirmation == Y; payloads
that raise inside the try block return the Parse Error record without flag keys. -/
theorem claim_region_gating :
    ∀ (fs : List (String × Json)) (oa rc : String) (cass : Bool) (out : ParsedResult),
      hasKeyFs fs "error" = false → bodyShapeOk (.obj fs) rc = true →
      parse_validation_result (.obj fs) oa rc cass = .ok out →
      (rc ≠ "US" →
        out.is_po_box = some (.bool false) ∧ out.is_dpv_confirmed = some false) ∧
      (rc = "US" →
        out.is_po_box = some (jget (metadataOf (.obj fs)) "poBox" (.bool false)) ∧
        out.is_dpv_confirmed =
          some (jeqStr (jget (uspsOf (.obj fs)) "dpvConfirmation" .null) "Y")) := by
  intro fs oa rc cass out hek hsh hout
  rw [parse_main oa rc cass hek hsh] at hout
  injection hout with hout
  subst hout
  constructor
  · intro hne
    have hrc : (rc == "US") = false := beq_eq_false_iff_ne.mpr hne
    simp [successRecord, hrc]
  · intro heq
    subst heq
    simp [successRecord, metadataOf, uspsOf, resultOf]

/-- Sample payload for C6: a poBox marker and a confirmed DPV code that must both be
ignored outside the US. -/
def c6_sample : List (String × Json) :=
  [("result", .obj [("metadata", .obj [("poBox", .bool true)]),
                    ("uspsData", .obj [("dpvConfirmation", .str "Y")])])]

/-- Witness for C6: with region CA the two flags come out false although the payload
carries poBox true and dpvConfirmation Y. -/
theorem claim_region_gating_witness :
    (successRecord (.obj c6_sample) "x" "CA" true).is_po_box = some (.bool false) ∧
    (successRecord (.obj c6_sample) "x" "CA" true).is_dpv_confirmed = some false :=
  (claim_region_gating c6_sample "x" "CA" true
    (successRecord (.obj c6_sample) "x" "CA" true) (by decide) (by decide)
    (parse_main "x" "CA" true (by decide) (by decide))).1 (by decide)

/-- Payload for the C7 counterexample: a list-valued dpvConfirmation code. -/
def c7_cex : List (String × Json) :=
  [("result", .obj [("uspsData", .obj [("dpvConfirmation", .arr [])])])]

/-- C7 counterexample: a list-valued dpvConfirmation is an unrecognized code, yet the
program does not produce the unknown-code description: mapping.get hashes the code,
line 192 raises TypeError, and the returned Parse Error record carries no description
key at all. -/
theorem claim_dpv_description_cex :
    parse_validation_result (.obj c7_cex) "a" "US" true =
      .ok (parse_error_result "a" "unhashable type: \x27list\x27") ∧
    (parse_error_result "a" "unhashable type: \x27list\x27").dpv_confirmation_description =
      none ∧
    (none : Option String) ≠ some "Unknown DPV Confirmation Code" := by
  refine ⟨rfl, rfl, ?_⟩
  intro h
  exact Option.noConfusion h

/-- C7 amended: the description is the six-entry table lookup of dpvConfirmation with
the N/A sentinel default; any unrecognized or missing hashable code yields the
unknown-code text, and the lookup runs on the main path for every region. Unhashable
(list or dict) codes instead raise TypeError inside the try block and take the Parse
Error path. -/
theorem claim_dpv_description :
    (map_dpv_confirmation (.str "Y") =
        .ok "Address confirmed (Primary and secondary if present)." ∧
      map_dpv_confirmation (.str "N") =
        .ok "Address not confirmed (No primary or secondary match)." ∧
      map_dpv_confirmation (.str "D") =
        .ok "Primary confirmed, but secondary information is missing." ∧
      map_dpv_confirmation (.str "S") =
        .ok "Primary confirmed, secondary information exists but was not provided in the input." ∧
      map_dpv_confirmation (.str "C") =
        .ok "Address confirmed, but it is a Commercial Mail Receiving Agency (CMRA)." ∧
      map_dpv_confirmation (.str "B") =
        .ok "Primary confirmed, but it is a PO Box or equivalent." ∧
      map_dpv_confirmation (.str "Z") = .ok "Unknown DPV Confirmation Code" ∧
      map_dpv_confirmation (.str "N/A") = .ok "Unknown DPV Confirmation Code") ∧
    (∀ c : Json, py_hashable c = true →
      jeqStr c "Y" = false → jeqStr c "N" = false → jeqStr c "D" = false →
      jeqStr c "S" = false → jeqStr c "C" = false → jeqStr c "B" = false →
      map_dpv_confirmation c = .ok "Unknown DPV Confirmation Code") ∧
    (map_dpv_confirmation (.arr []) = .error "unhashable type: \x27list\x27" ∧
      map_dpv_confirmation (.obj []) = .error "unhashable type: \x27dict\x27") ∧
    (∀ (fs : List (String × Json)) (oa rc : String) (cass : Bool) (out : ParsedResult),
      hasKeyFs fs "error" = false → bodyShapeOk (.obj fs) rc = true →
      parse_validation_result (.obj fs) oa rc cass = .ok out →
      out.dpv_confirmation_description =
        some (dpv_code_table
          (jget (uspsOf (.obj fs)) "dpvConfirmation" (.str "N/A")))) ∧
    (dpv_description_of
        (parse_validation_result (.obj [("result", .obj [])]) "a" "US" true) =
      some "Unknown DPV Confirmation Code") := by
  refine ⟨⟨rfl, rfl, rfl, rfl, rfl, rfl, rfl, rfl⟩, ?_, ⟨rfl, rfl⟩, ?_, rfl⟩
  · intro c hh h1 h2 h3 h4 h5 h6
    rw [map_dpv_ok hh]
    unfold dpv_code_table
    simp [h1, h2, h3, h4, h5, h6]
  · intro fs oa rc cass out hek hsh hout
    rw [parse_main oa rc cass hek hsh] at hout
    injection hout with hout
    subst hout
    rfl

/-- Sample payload for C7 with DPV code D, read under a non-US region. -/
def c7_sample : List (String × Json) :=
  [("result", .obj [("uspsData", .obj [("dpvConfirmation", .str "D")])])]

/-- Witness for C7: the description equals the table lookup even with region DE. -/
theorem claim_dpv_description_witness :
    (successRecord (.obj c7_sample) "m" "DE" false).dpv_confirmation_description =
      some (dpv_code_table
        (jget (uspsOf (.obj c7_sample)) "dpvConfirmation" (.str "N/A"))) :=
  claim_dpv_description.2.2.2.1 c7_sample "m" "DE" false
    (successRecord (.obj c7_sample) "m" "DE" false) (by decide) (by decide)
    (parse_main "m" "DE" false (by decide) (by decide))

/-- Sample payload for C8: inferred components at PREMISE granularity. -/
def c8_premise : List (String × Json) :=
  [("result", .obj [("verdict", .obj [("validationGranularity", .str "PREMISE"),
    ("hasInferredComponents", .bool true)])])]

/-- Second sample payload for C8: inferred components at LOCALITY granularity. -/
def c8_locality : List (String × Json) :=
  [("result", .obj [("verdict", .obj [("validationGranularity", .str "LOCALITY"),
    ("hasInferredComponents", .bool true)])])]

/-- Payload for the C8 counterexample: PREMISE granularity and inferred components,
so the note is appended on line 167, together with a list-valued dpvConfirmation that
makes line 192 raise afterwards. -/
def c8_cex : List (String × Json) :=
  [("result", .obj [("verdict", .obj [("validationGranularity", .str "PREMISE"),
      ("hasInferredComponents", .bool true)]),
    ("uspsData", .obj [("dpvConfirmation", .arr [])])])]

/-- C8 counterexample: both conditions of the claimed iff hold, yet the returned
status is the Parse Error text, not the suffixed table status; the final length fact
shows the 36-character status cannot end with the 39-character note, whatever prefix
is put in front of it. -/
theorem claim_inferred_suffix_cex :
    truthy (jget (verdictOf (.obj c8_cex)) "hasInferredComponents" (.bool false)) = true ∧
    gran_mailable (granularityOf (.obj c8_cex)) = true ∧
    validation_status_of (parse_validation_result (.obj c8_cex) "a" "US" true) =
      some "Parse Error: unhashable type: \x27list\x27" ∧
    "Parse Error: unhashable type: \x27list\x27" ≠
      (granularity_status (granularityOf (.obj c8_cex))).1 ++ inferred_note ∧
    ("Parse Error: unhashable type: \x27list\x27").length < inferred_note.length := by
  refine ⟨rfl, rfl, rfl, ?_, by decide⟩
  intro h
  exact absurd h (by decide)

/-- C8 amended: on every payload where parsing completes without an exception, the
inferred-components note is appended exactly when hasInferredComponents is truthy and
the granularity is one of the three mailable levels; when those conditions hold but
line 192 subsequently raises, the status is the Parse Error text instead. -/
theorem claim_inferred_suffix :
    (∀ (fs : List (String × Json)) (oa rc : String) (cass : Bool) (out : ParsedResult),
      hasKeyFs fs "error" = false → bodyShapeOk (.obj fs) rc = true →
      parse_validation_result (.obj fs) oa rc cass = .ok out →
      (out.validation_status =
          (granularity_status (granularityOf (.obj fs))).1 ++ inferred_note ↔
        (truthy (jget (verdictOf (.obj fs)) "hasInferredComponents" (.bool false)) = true ∧
         gran_mailable (granularityOf (.obj fs)) = true))) ∧
    (validation_status_of (parse_validation_result (.obj c8_premise) "a" "US" true) =
      some ("Standard Mailable Address (Validated to building)" ++ inferred_note)) ∧
    (validation_status_of (parse_validation_result (.obj c8_locality) "a" "US" true) =
      some "Non-Mailable Address (Only city-level validated)") := by
  refine ⟨?_, rfl, rfl⟩
  intro fs oa rc cass out hek hsh hout
  rw [parse_main oa rc cass hek hsh] at hout
  injection hout with hout
  subst hout
  rw [show (successRecord (.obj fs) oa rc cass).validation_status =
      main_status (granularityOf (.obj fs))
        (jget (verdictOf (.obj fs)) "hasInferredComponents" (.bool false)) from rfl]
  unfold main_status
  split_ifs with h
  · rw [Bool.and_eq_true] at h
    simp [h]
  · constructor
    · intro habs
      exact absurd habs (ne_append_inferred_note _)
    · rintro ⟨h1, h2⟩
      exact absurd (by rw [h1, h2]; rfl) h

/-- Witness for C8 at the PREMISE sample: the iff instance holds there. -/
theorem claim_inferred_suffix_witness :
    (successRecord (.obj c8_premise) "a" "US" true).validation_status =
        (granularity_status (granularityOf (.obj c8_premise))).1 ++ inferred_note ↔
      (truthy (jget (verdictOf (.obj c8_premise)) "hasInferredComponents" (.bool false)) = true ∧
       gran_mailable (granularityOf (.obj c8_premise)) = true) :=
  claim_inferred_suffix.1 c8_premise "a" "US" true
    (successRecord (.obj c8_premise) "a" "US" true) (by decide) (by decide)
    (parse_main "a" "US" true (by decide) (by decide))

/-- Payload for the C9 counterexample: an error key together with a formatted
address. -/
def c9_sample : List (String × Json) :=
  [("error", .str "timeout"),
   ("result", .obj [("address",
     .obj [("formattedAddress", .str "425 5th Ave, New York, NY")])])]

/-- C9 counterexample: the response carries a formatted address, yet the API error
path echoes the original input as validated_address, so the when-present clause of the
claim fails on the error paths. -/
theorem claim_result_invariants_cex :
    jget (addressOf (.obj c9_sample)) "formattedAddress" (.str "orig") =
        .str "425 5th Ave, New York, NY" ∧
    parse_validation_result (.obj c9_sample) "orig" "US" true =
      .ok { original_address := "orig"
            validated_address := .str "orig"
            is_valid := false
            validation_status := "API Error: timeout"
            lat := some .null
            lng := some .null
            usps_data := some .null } ∧
    Json.str "orig" ≠ Json.str "425 5th Ave, New York, NY" := by
  refine ⟨rfl, rfl, ?_⟩
  intro h
  injection h with h
  exact absurd h (by decide)

/-- C9 amended: every returned result has a definite boolean is_valid and a non-empty
validation_status, and validated_address follows the path taken: on the error-key
path and on the parse-error path it is the original input text, and on the main path
it is the formatted address extracted from the response with the original input as
the lookup default. -/
theorem claim_result_invariants_amended :
    ∀ (r : Json) (oa rc : String) (cass : Bool) (out : ParsedResult),
      parse_validation_result r oa rc cass = .ok out →
      (out.is_valid = true ∨ out.is_valid = false) ∧
      out.validation_status ≠ "" ∧
      (∀ fs, r = .obj fs → hasKeyFs fs "error" = true →
        out.validated_address = .str oa) ∧
      (∀ msg, tryBody r oa rc cass = .error msg →
        out.validated_address = .str oa) ∧
      (∀ fs res, r = .obj fs → hasKeyFs fs "error" = false →
        tryBody r oa rc cass = .ok res →
        out.validated_address = jget (addressOf r) "formattedAddress" (.str oa)) := by
  intro r oa rc cass out h
  refine ⟨Bool.eq_false_or_eq_true _, ?_⟩
  unfold parse_validation_result at h
  rcases hin : py_in "error" r with e | b
  · rw [hin] at h
    have h2 : (Except.error e : Except String ParsedResult) = .ok out := h
    injection h2
  · rw [hin, bind_ok] at h
    cases b with
    | true =>
      simp only [if_true] at h
      rcases bind_eq_ok.mp h with ⟨v, _, h2⟩
      have h3 : (Except.ok (api_error_result oa v) : Except String ParsedResult) =
          .ok out := h2
      injection h3 with h3
      subst h3
      refine ⟨append_ne_empty_left (by decide), fun _ _ _ => rfl, fun _ _ => rfl, ?_⟩
      intro fs res heq hek _
      subst heq
      have h4 : (Except.ok (hasKeyFs fs "error") : Except String Bool) = .ok true := hin
      injection h4 with h4
      rw [hek] at h4
      exact absurd h4 (by decide)
    | false =>
      simp only [Bool.false_eq_true, if_false] at h
      rcases htb : tryBody r oa rc cass with msg | res
      · rw [htb] at h
        have h2 : (Except.ok (parse_error_result oa msg) : Except String ParsedResult) =
            .ok out := h
        injection h2 with h2
        subst h2
        refine ⟨append_ne_empty_left (by decide), fun _ _ _ => rfl, fun _ _ => rfl, ?_⟩
        intro fs res _ _ htb2
        injection htb2
      · rw [htb] at h
        have h2 : (Except.ok res : Except String ParsedResult) = .ok out := h
        injection h2 with h2
        subst h2
        obtain ⟨_, hrec⟩ := tryBody_ok_inv htb
        subst hrec
        refine ⟨main_status_ne_empty _ _, ?_, ?_, ?_⟩
        · intro fs heq hek
          subst heq
          have h4 : (Except.ok (hasKeyFs fs "error") : Except String Bool) = .ok false := hin
          injection h4 with h4
          rw [hek] at h4
          exact absurd h4 (by decide)
        · intro msg htb2
          injection htb2
        · intro fs res2 _ _ _
          rfl

/-- Witness for C9 amended at a parse-error input: the string result value raises
inside the try block and the returned record has a definite boolean, a non-empty
status, and the original input echoed as validated_address. -/
theorem claim_result_invariants_amended_witness :
    ((parse_error_result "w" "\x27list\x27 object has no attribute \x27get\x27").is_valid = true ∨
      (parse_error_result "w" "\x27list\x27 object has no attribute \x27get\x27").is_valid = false) ∧
    (parse_error_result "w" "\x27list\x27 object has no attribute \x27get\x27").validation_status ≠ "" ∧
    (parse_error_result "w" "\x27list\x27 object has no attribute \x27get\x27").validated_address =
      .str "w" := by
  have h := claim_result_invariants_amended (.obj [("result", .arr [])]) "w" "US" true
    (parse_error_result "w" "\x27list\x27 object has no attribute \x27get\x27") (by rfl)
  exact ⟨h.1, h.2.1,
    h.2.2.2.1 "\x27list\x27 object has no attribute \x27get\x27" (by rfl)⟩

/-- Default region_code in the signature of parse_validation_result (line 116). -/
def default_region_code : String := "US"

/-- Default enable_usps_cass in the signature of parse_validation_result (line 116). -/
def default_enable_usps_cass : Bool := true

/-- Lines 257-258, the per-row classification step of process_addresses: the driver
passes only the raw response and the address text to parse_validation_result, so the
call runs with the line 116 defaults. The enable_cass flag of the driver is forwarded
to the network call on line 257 only and never reaches the parse call. -/
def process_row_classify (validation_result : Json) (address : String)
    (enable_cass : Bool) : Except String ParsedResult :=
  parse_validation_result validation_result address default_region_code
    default_enable_usps_cass

/-- Payload showing the CASS flag matters to the classifier: every verdict condition
passes but the DPV code is N. -/
def c10_demo : List (String × Json) :=
  [("result", .obj
    [("verdict", .obj
      [("validationGranularity", .str "PREMISE"), ("addressComplete", .bool true),
       ("hasInferredComponents", .bool false), ("hasReplacedComponents", .bool false),
       ("unconfirmedComponentTypes", .arr []), ("missingComponentTypes", .arr []),
       ("unresolvedTokens", .arr [])]),
     ("uspsData", .obj [("dpvConfirmation", .str "N")])])]

/-- C10: the batch driver always classifies with region US and CASS enabled, whatever
enable_cass it was given, although the flag genuinely changes classifier output. -/
theorem claim_driver_defaults :
    (∀ (vr : Json) (a : String) (c1 c2 : Bool),
      process_row_classify vr a c1 = process_row_classify vr a c2) ∧
    (∀ (vr : Json) (a : String) (c : Bool),
      process_row_classify vr a c = parse_validation_result vr a "US" true) ∧
    (parse_validation_result (.obj c10_demo) "a" "US" true ≠
      parse_validation_result (.obj c10_demo) "a" "US" false) := by
  refine ⟨fun _ _ _ _ => rfl, fun _ _ _ => rfl, ?_⟩
  intro h
  have h2 := congrArg is_confirmed_of h
  have e1 : is_confirmed_of (parse_validation_result (.obj c10_demo) "a" "US" true) =
      some (Json.bool false) := rfl
  have e2 : is_confirmed_of (parse_validation_result (.obj c10_demo) "a" "US" false) =
      some (Json.bool true) := rfl
  rw [e1, e2] at h2
  injection h2 with h2
  injection h2 with h2
  exact absurd h2 (by decide)

/-- Witness for C10: the per-row classification of the demo payload is identical for
both settings of the driver flag. -/
theorem claim_driver_defaults_witness :
    process_row_classify (.obj c10_demo) "a" true =
      process_row_classify (.obj c10_demo) "a" false :=
  claim_driver_defaults.1 (.obj c10_demo) "a" true false

end AddressValidate
